import Mathlib

/-!
Verification of the session/state lifecycle and route dispatch logic of the
partner example web application (`src/main.py`).

The embedding is shallow: the process-global mutable dictionary `_state`
becomes an explicit association list threaded through the operations, the
Flask route handlers become pure functions from the session state (and the
results of the external `climate` client, passed in as function arguments)
to the rendered HTML page string, and Python exceptions (KeyError,
IndexError, TypeError) become `Option` results with `none` marking an
unhandled fault.  `url_for(endpoint, ...)` is embedded as the registered
route path of the endpoint, with query parameters appended textually.
-/

namespace PartnerApp

/-- A field record as used by the program: `{id, name, boundaryId, ...}`,
opaque pass-through of external API data. -/
structure Field where
  id : String
  name : String
  boundaryId : String
  deriving DecidableEq

/-- Python values that can appear in the session store of this program:
`None`, strings (the OAuth tokens), the user dictionary (string keyed,
string valued), and the cached list of field records. -/
inductive PyVal where
  | none
  | str (s : String)
  | dict (d : List (String × String))
  | fieldList (fs : List Field)
  deriving DecidableEq

/-- Python truthiness of a session value: `None`, the empty string, the
empty dict and the empty list are falsy; everything else is truthy. -/
def truthy : PyVal → Bool
  | PyVal.none => false
  | PyVal.str s => !s.isEmpty
  | PyVal.dict d => !d.isEmpty
  | PyVal.fieldList fs => !fs.isEmpty

/-- The session store `_state`: a string-keyed dictionary of Python
values, embedded as an association list without duplicate keys observable
through lookup. -/
abbrev Dict := List (String × PyVal)

/-- Dictionary lookup, `d.get(key)` before the `None` defaulting:
`none` means the key is absent. -/
def dictGet : Dict → String → Option PyVal
  | [], _ => Option.none
  | (k, v) :: d, key => if k = key then some v else dictGet d key

/-- Dictionary assignment `d[key] = v`: overwrite in place if the key is
present, append otherwise. -/
def dictSet : Dict → String → PyVal → Dict
  | [], key, v => [(key, v)]
  | (k, w) :: d, key, v =>
    if k = key then (key, v) :: d else (k, w) :: dictSet d key v

/-- The key set of the store. -/
def keysOf (d : Dict) : List String := d.map Prod.fst

/-- One guarded assignment of `set_state`:
`if key in kwargs: _state[key] = kwargs[key]`. -/
def setIfPresent (kwargs : Dict) (key : String) (st : Dict) : Dict :=
  match dictGet kwargs key with
  | some v => dictSet st key v
  | Option.none => st

/-- `set_state(**kwargs)` from `src/main.py`: merge the provided keys,
among the four known session keys, into the store; any other keyword is
ignored. -/
def set_state (kwargs : Dict) (st : Dict) : Dict :=
  setIfPresent kwargs "fields"
    (setIfPresent kwargs "user"
      (setIfPresent kwargs "refresh_token"
        (setIfPresent kwargs "access_token" st)))

/-- `clear_state()` from `src/main.py`: set all four session keys to
`None`. -/
def clear_state (st : Dict) : Dict :=
  set_state [("access_token", PyVal.none), ("refresh_token", PyVal.none),
             ("user", PyVal.none), ("fields", PyVal.none)] st

/-- `state(key)` from `src/main.py`: `_state.get(key)`, which returns the
stored value, or `None` when the key is absent. -/
def state (st : Dict) (key : String) : PyVal :=
  (dictGet st key).getD PyVal.none

/-- The four keys `set_state` knows about. -/
def sessionKeys : List String :=
  ["access_token", "refresh_token", "user", "fields"]

/-! ### Lemmas about the dictionary operations -/

theorem dictGet_dictSet_self (d : Dict) (k : String) (v : PyVal) :
    dictGet (dictSet d k v) k = some v := by
  induction d with
  | nil => simp [dictSet, dictGet]
  | cons hd tl ih =>
    obtain ⟨k', w⟩ := hd
    by_cases h : k' = k
    · simp [dictSet, dictGet, h]
    · simp [dictSet, dictGet, h, ih]

theorem dictGet_dictSet_ne (d : Dict) (k k' : String) (v : PyVal)
    (h : k' ≠ k) : dictGet (dictSet d k v) k' = dictGet d k' := by
  have hk : ¬ k = k' := fun hh => h hh.symm
  induction d with
  | nil => simp [dictSet, dictGet, hk]
  | cons hd tl ih =>
    obtain ⟨k0, w⟩ := hd
    by_cases h0 : k0 = k
    · subst h0
      simp [dictSet, dictGet, hk]
    · simp only [dictSet, dictGet, h0, if_neg h0]
      by_cases h1 : k0 = k'
      · simp [h1]
      · simp [h1, ih]

theorem mem_keysOf_iff (d : Dict) (k : String) :
    k ∈ keysOf d ↔ (dictGet d k).isSome = true := by
  induction d with
  | nil => simp [dictGet, keysOf]
  | cons hd tl ih =>
    obtain ⟨k0, w⟩ := hd
    by_cases h0 : k0 = k
    · subst h0
      simp [dictGet, keysOf]
    · have h0' : ¬ k = k0 := fun hh => h0 hh.symm
      simp only [keysOf, List.map_cons, List.mem_cons] at ih ⊢
      simp [dictGet, h0, h0', ih]

theorem dictGet_setIfPresent_ne (kwargs : Dict) (key k : String)
    (st : Dict) (h : k ≠ key) :
    dictGet (setIfPresent kwargs key st) k = dictGet st k := by
  unfold setIfPresent
  cases dictGet kwargs key with
  | none => rfl
  | some v => exact dictGet_dictSet_ne st key k v h

theorem dictGet_setIfPresent_self (kwargs : Dict) (key : String)
    (st : Dict) :
    dictGet (setIfPresent kwargs key st) key =
      match dictGet kwargs key with
      | some v => some v
      | Option.none => dictGet st key := by
  unfold setIfPresent
  cases dictGet kwargs key with
  | none => rfl
  | some v => exact dictGet_dictSet_self st key v

theorem setIfPresent_absent (kwargs : Dict) (key : String) (st : Dict)
    (h : dictGet kwargs key = Option.none) :
    setIfPresent kwargs key st = st := by
  unfold setIfPresent
  rw [h]

/-- Frame lemma for `set_state`: a key not provided in the call (or not
among the four known keys) keeps its stored binding. -/
theorem dictGet_set_state_frame (kwargs st : Dict) (k : String)
    (h : dictGet kwargs k = Option.none ∨ k ∉ sessionKeys) :
    dictGet (set_state kwargs st) k = dictGet st k := by
  have hstep : ∀ key st', (k ≠ key ∨ dictGet kwargs key = Option.none) →
      dictGet (setIfPresent kwargs key st') k = dictGet st' k := by
    intro key st' hk
    rcases hk with hk | hk
    · exact dictGet_setIfPresent_ne kwargs key k st' hk
    · rw [setIfPresent_absent kwargs key st' hk]
  have hone : ∀ key, key ∈ sessionKeys →
      k ≠ key ∨ dictGet kwargs key = Option.none := by
    intro key hkey
    by_cases hek : k = key
    · subst hek
      rcases h with h | h
      · right; exact h
      · exact absurd hkey h
    · left; exact hek
  unfold set_state
  rw [hstep "fields" _ (hone _ (by decide)),
     hstep "user" _ (hone _ (by decide)),
     hstep "refresh_token" _ (hone _ (by decide)),
     hstep "access_token" _ (hone _ (by decide))]

/-- Update lemma for `set_state`: a provided known key takes the provided
value. -/
theorem dictGet_set_state_update (kwargs st : Dict) (k : String)
    (hk : k ∈ sessionKeys) (v : PyVal) (h : dictGet kwargs k = some v) :
    dictGet (set_state kwargs st) k = some v := by
  unfold set_state
  simp only [sessionKeys, List.mem_cons, List.not_mem_nil, or_false] at hk
  rcases hk with hk | hk | hk | hk <;> subst hk
  · rw [dictGet_setIfPresent_ne _ _ _ _ (by decide),
       dictGet_setIfPresent_ne _ _ _ _ (by decide),
       dictGet_setIfPresent_ne _ _ _ _ (by decide),
       dictGet_setIfPresent_self, h]
  · rw [dictGet_setIfPresent_ne _ _ _ _ (by decide),
       dictGet_setIfPresent_ne _ _ _ _ (by decide),
       dictGet_setIfPresent_self, h]
  · rw [dictGet_setIfPresent_ne _ _ _ _ (by decide),
       dictGet_setIfPresent_self, h]
  · rw [dictGet_setIfPresent_self, h]

/-- `logout_redirect()` from `src/main.py`: clear the session state and
redirect to the home route.  The handler takes no external-client
argument: it makes no Climate API call. -/
def logout_redirect (st : Dict) : Dict × String :=
  (clear_state st, "/home")

/-- C4: partial update does not clobber other keys.  For every prior
session state and every kwargs dictionary: each of the four known keys
provided in the call takes the provided value, every key not provided in
the call keeps its prior binding, and in particular after
`set(access-token = T)`, `get` of the refresh token is unchanged. -/
theorem set_state_partial_update (st kwargs : Dict) :
    (∀ k ∈ sessionKeys, ∀ v, dictGet kwargs k = some v →
        dictGet (set_state kwargs st) k = some v)
    ∧ (∀ k, dictGet kwargs k = Option.none →
        dictGet (set_state kwargs st) k = dictGet st k)
    ∧ (∀ T, state (set_state [("access_token", T)] st) "refresh_token" =
        state st "refresh_token") := by
  refine ⟨?_, ?_, ?_⟩
  · intro k hk v hv
    exact dictGet_set_state_update kwargs st k hk v hv
  · intro k hk
    exact dictGet_set_state_frame kwargs st k (Or.inl hk)
  · intro T
    unfold state
    rw [dictGet_set_state_frame _ st "refresh_token"
        (Or.inl (by simp [dictGet, show ¬ "access_token" = "refresh_token" by decide]))]

/-- Witness for C4 at a concrete store: updating only the access token
stores the new access token and leaves the stored refresh token alone. -/
theorem set_state_partial_update_witness :
    dictGet (set_state [("access_token", PyVal.str "T2")]
        [("access_token", PyVal.str "T1"), ("refresh_token", PyVal.str "R1")])
      "access_token" = some (PyVal.str "T2")
    ∧ state (set_state [("access_token", PyVal.str "T2")]
        [("access_token", PyVal.str "T1"), ("refresh_token", PyVal.str "R1")])
      "refresh_token" = PyVal.str "R1" := by
  have h := set_state_partial_update
      [("access_token", PyVal.str "T1"), ("refresh_token", PyVal.str "R1")]
      [("access_token", PyVal.str "T2")]
  refine ⟨h.1 "access_token" (by decide) (PyVal.str "T2") (by decide), ?_⟩
  rw [h.2.2 (PyVal.str "T2")]
  decide

/-- C5: `clear_state` (and hence the logout route, which is exactly
`clear_state` followed by a redirect home, with no external call) puts
`None` in every session key, so `get` of user, access token, refresh
token and fields all return absent afterwards. -/
theorem clear_state_resets_session (st : Dict) :
    state (clear_state st) "user" = PyVal.none
    ∧ state (clear_state st) "access_token" = PyVal.none
    ∧ state (clear_state st) "refresh_token" = PyVal.none
    ∧ state (clear_state st) "fields" = PyVal.none
    ∧ state (logout_redirect st).1 "user" = PyVal.none
    ∧ state (logout_redirect st).1 "access_token" = PyVal.none
    ∧ state (logout_redirect st).1 "refresh_token" = PyVal.none
    ∧ state (logout_redirect st).1 "fields" = PyVal.none
    ∧ (logout_redirect st).2 = "/home" := by
  have h : ∀ k, k ∈ sessionKeys → state (clear_state st) k = PyVal.none := by
    intro k hk
    have hv : dictGet [("access_token", PyVal.none),
        ("refresh_token", PyVal.none), ("user", PyVal.none),
        ("fields", PyVal.none)] k = some PyVal.none := by
      simp only [sessionKeys, List.mem_cons, List.not_mem_nil, or_false] at hk
      rcases hk with hk | hk | hk | hk <;> subst hk <;> decide
    unfold state clear_state
    rw [dictGet_set_state_update _ st k hk PyVal.none hv]
    rfl
  exact ⟨h _ (by decide), h _ (by decide), h _ (by decide), h _ (by decide),
    h _ (by decide), h _ (by decide), h _ (by decide), h _ (by decide), rfl⟩

/-- C8: invariants of the session store. The key set stays inside the
four known keys under `set_state`; a key outside the four is never
stored; a call providing none of the four known keys leaves the store
unchanged; and `get` of a key that was never set returns absent rather
than failing. -/
theorem session_store_invariant :
    (∀ st kwargs : Dict, (∀ k ∈ keysOf st, k ∈ sessionKeys) →
        ∀ k ∈ keysOf (set_state kwargs st), k ∈ sessionKeys)
    ∧ (∀ (st kwargs : Dict) (k : String), k ∉ sessionKeys →
        dictGet (set_state kwargs st) k = dictGet st k)
    ∧ (∀ st kwargs : Dict, (∀ k ∈ sessionKeys, dictGet kwargs k = Option.none) →
        set_state kwargs st = st)
    ∧ (∀ (st : Dict) (k : String), dictGet st k = Option.none →
        state st k = PyVal.none) := by
  refine ⟨?_, ?_, ?_, ?_⟩
  · intro st kwargs hsub k hk
    by_cases hks : k ∈ sessionKeys
    · exact hks
    · have h1 : (dictGet (set_state kwargs st) k).isSome = true :=
        (mem_keysOf_iff _ k).mp hk
      rw [dictGet_set_state_frame kwargs st k (Or.inr hks)] at h1
      exact hsub k ((mem_keysOf_iff st k).mpr h1)
  · intro st kwargs k hks
    exact dictGet_set_state_frame kwargs st k (Or.inr hks)
  · intro st kwargs h
    unfold set_state
    rw [setIfPresent_absent _ _ _ (h "fields" (by decide)),
       setIfPresent_absent _ _ _ (h "user" (by decide)),
       setIfPresent_absent _ _ _ (h "refresh_token" (by decide)),
       setIfPresent_absent _ _ _ (h "access_token" (by decide))]
  · intro st k h
    unfold state
    rw [h]
    rfl

/-- Witness for C8 at concrete inputs: a call whose only keyword is
unknown leaves a concrete store untouched, and `get` of a key never set
returns absent. -/
theorem session_store_invariant_witness :
    set_state [("favourite_colour", PyVal.str "green")]
        [("user", PyVal.dict [("firstname", "Ann"), ("lastname", "Bee")])]
      = [("user", PyVal.dict [("firstname", "Ann"), ("lastname", "Bee")])]
    ∧ state [] "never_set_key" = PyVal.none := by
  have h := session_store_invariant
  refine ⟨h.2.2.1 _ _ ?_, h.2.2.2 [] "never_set_key" (by decide)⟩
  intro k hk
  simp only [sessionKeys, List.mem_cons, List.not_mem_nil, or_false] at hk
  rcases hk with hk | hk | hk | hk <;> subst hk <;> decide

/-- A successful token-exchange response from the external client
(`climate.authorize` / `climate.reauthorize`): access token, refresh
token and the user record. -/
structure AuthResp where
  access_token : String
  refresh_token : String
  user : List (String × String)
  deriving DecidableEq

/-- The `/refresh-token` route from `src/main.py`: exchange the stored
refresh token (the external call is abstracted into the `resp` argument);
on a truthy response store the response's user, access token and refresh
token, then redirect home.  Note the `set_state` call does not mention
`fields`. -/
def refresh_token (st : Dict) (resp : Option AuthResp) : Dict × String :=
  match resp with
  | some r =>
      (set_state [("user", PyVal.dict r.user),
                  ("access_token", PyVal.str r.access_token),
                  ("refresh_token", PyVal.str r.refresh_token)] st, "/home")
  | Option.none => (st, "/home")

/-- C1 (counterexample): on a session whose cached field list is
populated, a successful refresh leaves the `fields` key exactly as it was
before the refresh — so it is not the case that no session field retains
its pre-refresh value. -/
theorem refresh_retains_fields_counterexample :
    state ((refresh_token
        [("access_token", PyVal.str "a1"), ("refresh_token", PyVal.str "r1"),
         ("user", PyVal.dict [("firstname", "Ann"), ("lastname", "Bee")]),
         ("fields", PyVal.fieldList [⟨"f1", "North Forty", "b1"⟩])]
        (some ⟨"a2", "r2", [("firstname", "Ann"), ("lastname", "Bee")]⟩)).1)
      "fields" = PyVal.fieldList [⟨"f1", "North Forty", "b1"⟩]
    ∧ PyVal.fieldList [⟨"f1", "North Forty", "b1"⟩] ≠ PyVal.none := by
  decide

/-- C1 (amended): a successful refresh overwrites the session's access
token, refresh token and user with the values from the reauthorize
response, but the cached `fields` key keeps its pre-refresh binding. -/
theorem refresh_overwrites_tokens_and_user (st : Dict) (r : AuthResp) :
    state (refresh_token st (some r)).1 "access_token" = PyVal.str r.access_token
    ∧ state (refresh_token st (some r)).1 "refresh_token" = PyVal.str r.refresh_token
    ∧ state (refresh_token st (some r)).1 "user" = PyVal.dict r.user
    ∧ dictGet (refresh_token st (some r)).1 "fields" = dictGet st "fields"
    ∧ (refresh_token st (some r)).2 = "/home" := by
  unfold refresh_token state
  refine ⟨?_, ?_, ?_, ?_, rfl⟩
  · rw [dictGet_set_state_update _ st "access_token" (by decide)
        (PyVal.str r.access_token) (by simp [dictGet])]
    rfl
  · rw [dictGet_set_state_update _ st "refresh_token" (by decide)
        (PyVal.str r.refresh_token) (by simp [dictGet])]
    rfl
  · rw [dictGet_set_state_update _ st "user" (by decide)
        (PyVal.dict r.user) (by simp [dictGet])]
    rfl
  · exact dictGet_set_state_frame
      [("user", PyVal.dict r.user),
       ("access_token", PyVal.str r.access_token),
       ("refresh_token", PyVal.str r.refresh_token)] st "fields"
      (Or.inl (by simp [dictGet]))

/-! ### The field detail route -/

/-- The lookup inside the `/field/<field_id>` route:
`[f for f in state('fields') if f['id'] == field_id][0]`.  Indexing an
empty list raises IndexError, embedded as `none`. -/
def fieldSelect (fields : List Field) (field_id : String) : Option Field :=
  (fields.filter fun f => f.id == field_id).head?

/-- The page rendered by the field detail route, with the boundary data
already serialised. -/
def fieldPage (name boundary : String) : String :=
  "\n           <h1>Partner API Demo Site</h1>\n           <h2>Field Name: "
    ++ name
    ++ "</h2>\n           <p>Boundary info:<pre>"
    ++ boundary
    ++ "</pre></p>\n           <p><a href=\"/home\">Return home</a></p>\n           "

/-- The `/field/<field_id>` route from `src/main.py`: linear scan of the
cached field list for the requested id, then fetch and render the
boundary of the selected field.  `get_boundary` abstracts the external
`climate.get_boundary` call composed with the JSON serialisation; `none`
is the unhandled IndexError when no field matches. -/
def field (fields : List Field) (field_id : String)
    (get_boundary : String → String) : Option String :=
  match fieldSelect fields field_id with
  | some f => some (fieldPage f.name (get_boundary f.boundaryId))
  | Option.none => Option.none

theorem fieldSelect_eq_none_iff (fields : List Field) (fid : String) :
    fieldSelect fields fid = Option.none ↔ ∀ f ∈ fields, f.id ≠ fid := by
  unfold fieldSelect
  rw [List.head?_eq_none_iff, List.filter_eq_nil_iff]
  simp

theorem fieldSelect_eq_some (fields : List Field) (fid : String)
    (f : Field) (h : fieldSelect fields fid = some f) :
    f ∈ fields ∧ f.id = fid := by
  unfold fieldSelect at h
  have hmem : f ∈ fields.filter (fun g => g.id == fid) := by
    cases hl : fields.filter (fun g => g.id == fid) with
    | nil => rw [hl] at h; simp at h
    | cons a l =>
      rw [hl] at h
      simp only [List.head?] at h
      have ha : a = f := Option.some.inj h
      rw [← ha]
      exact List.mem_cons_self _ _
  exact ⟨List.mem_of_mem_filter hmem,
    by simpa using List.of_mem_filter hmem⟩

/-- C3: the field detail route selects, by linear scan of the cached
list, a record whose id equals the requested one whenever such a record
exists, and fails with an unhandled lookup error exactly when no record
matches. -/
theorem field_lookup_linear_scan (fields : List Field) (field_id : String)
    (get_boundary : String → String) :
    ((∃ f ∈ fields, f.id = field_id) →
      ∃ f, fieldSelect fields field_id = some f ∧ f ∈ fields
        ∧ f.id = field_id
        ∧ field fields field_id get_boundary
            = some (fieldPage f.name (get_boundary f.boundaryId)))
    ∧ (field fields field_id get_boundary = Option.none ↔
        ∀ f ∈ fields, f.id ≠ field_id) := by
  constructor
  · rintro ⟨f, hf, hid⟩
    cases hsel : fieldSelect fields field_id with
    | none =>
      exact absurd hid ((fieldSelect_eq_none_iff fields field_id).mp hsel f hf)
    | some g =>
      obtain ⟨hgmem, hgid⟩ := fieldSelect_eq_some fields field_id g hsel
      exact ⟨g, rfl, hgmem, hgid, by unfold field; rw [hsel]⟩
  · unfold field
    cases hsel : fieldSelect fields field_id with
    | none =>
      simpa using (fieldSelect_eq_none_iff fields field_id).mp hsel
    | some g =>
      obtain ⟨hgmem, hgid⟩ := fieldSelect_eq_some fields field_id g hsel
      simp only [reduceCtorEq, false_iff, not_forall]
      exact ⟨g, hgmem, fun hne => hne hgid⟩

/-- Witness for C3 at the concrete list from the specification: for the
cached list with ids `a` and `b`, requesting `b` renders the record where
the id is `b`, and requesting an id that is absent fails. -/
theorem field_lookup_witness :
    field [⟨"a", "Field A", "ba"⟩, ⟨"b", "Field B", "bb"⟩] "b" (fun s => s)
      = some (fieldPage "Field B" "bb")
    ∧ field [⟨"a", "Field A", "ba"⟩, ⟨"b", "Field B", "bb"⟩] "missing"
        (fun s => s) = Option.none := by
  constructor
  · obtain ⟨f, hsel, hmem, hid, heq⟩ :=
      (field_lookup_linear_scan [⟨"a", "Field A", "ba"⟩, ⟨"b", "Field B", "bb"⟩]
        "b" (fun s => s)).1 ⟨⟨"b", "Field B", "bb"⟩, by decide, rfl⟩
    have hf : f = (⟨"b", "Field B", "bb"⟩ : Field) := by
      have : fieldSelect [⟨"a", "Field A", "ba"⟩, ⟨"b", "Field B", "bb"⟩] "b"
          = some ⟨"b", "Field B", "bb"⟩ := by decide
      rw [this] at hsel
      exact (Option.some.injEq _ _).mp hsel.symm
    rw [hf] at heq
    exact heq
  · exact (field_lookup_linear_scan [⟨"a", "Field A", "ba"⟩, ⟨"b", "Field B", "bb"⟩]
      "missing" (fun s => s)).2.mpr (by decide)

/-! ### The attachment contents download route -/

/-- Header lookup in a response header dictionary. -/
def getHeader : List (String × String) → String → Option String
  | [], _ => Option.none
  | (k, v) :: d, key => if k = key then some v else getHeader d key

/-- An HTTP response as built by the route: a body (the byte sequence
passed to `Response(response=...)`) and a header dictionary. -/
structure HttpResponse where
  response : List Nat
  headers : List (String × String)
  deriving DecidableEq

/-- The route
`/scouting-observation/<scouting_observation_id>/attachments/<attachment_id>`
from `src/main.py`.  The `contentType` query parameter and the parsed
`length` are passed to the external client (abstracted as the `client`
argument); the returned bytes become the response body, and the response
headers are the literal dictionary `{'Content-type': 'image/jpeg'}`. -/
def scouting_observation_attachments_contents
    (client : PyVal → String → String → String → Option String → Nat → List Nat)
    (access_token : PyVal) (api_key : String)
    (scouting_observation_id attachment_id : String)
    (contentType : Option String) (length : Nat) : HttpResponse :=
  { response := client access_token api_key scouting_observation_id
      attachment_id contentType length,
    headers := [("Content-type", "image/jpeg")] }

/-- C2 (counterexample): for a request carrying `contentType=text/plain`,
the response body is the client's bytes but the Content-type header is
`image/jpeg`, not the given content type. -/
theorem attachments_contents_header_counterexample :
    (scouting_observation_attachments_contents
        (fun _ _ _ _ _ _ => [7, 7, 7]) (PyVal.str "tok") "key" "obs1" "att1"
        (some "text/plain") 3).response = [7, 7, 7]
    ∧ getHeader (scouting_observation_attachments_contents
        (fun _ _ _ _ _ _ => [7, 7, 7]) (PyVal.str "tok") "key" "obs1" "att1"
        (some "text/plain") 3).headers "Content-type" ≠ some "text/plain" := by
  decide

/-- C2 (amended): the route returns the bytes obtained from the external
client (to which the given contentType is forwarded) as the response
body, and the response's Content-type header is always `image/jpeg`,
irrespective of the contentType query parameter. -/
theorem attachments_contents_body_and_header
    (client : PyVal → String → String → String → Option String → Nat → List Nat)
    (tok : PyVal) (key soid aid : String) (ct : Option String) (len : Nat) :
    (scouting_observation_attachments_contents client tok key soid aid ct
        len).response = client tok key soid aid ct len
    ∧ getHeader (scouting_observation_attachments_contents client tok key
        soid aid ct len).headers "Content-type" = some "image/jpeg" := by
  refine ⟨rfl, ?_⟩
  simp [scouting_observation_attachments_contents, getHeader]

/-! ### The home route -/

/-- Lookup in the user dictionary (`state('user')['firstname']` etc.);
`none` is a KeyError. -/
def strGet : List (String × String) → String → Option String
  | [], _ => Option.none
  | (k, v) :: d, key => if k = key then some v else strGet d key

/-- Python `str()` of a session value, as interpolated by `.format`.
The dict and list renderings abbreviate the Python repr (its exact shape
is irrelevant here: tokens are strings or `None` in every reachable
state). -/
def pyStr : PyVal → String
  | PyVal.none => "None"
  | PyVal.str s => s
  | PyVal.dict d =>
      "\x7b" ++ String.intercalate ", " (d.map fun p => p.1 ++ ": " ++ p.2) ++ "\x7d"
  | PyVal.fieldList fs =>
      "[" ++ String.intercalate ", " (fs.map Field.id) ++ "]"

/-- `render_ul` from `src/main.py`. -/
def render_ul (xs : List String) : String :=
  "<ul>" ++ String.intercalate "\n" (xs.map fun x => "<li>" ++ x ++ "</li>") ++ "</ul>"

/-- `render_field_link` from `src/main.py`, with `url_for('field', ...)`
embedded as the route path `/field/<field_id>`. -/
def render_field_link (f : Field) : String :=
  "<a href=\"/field/" ++ f.id ++ "\">" ++ f.name ++ " (" ++ f.id ++ ")</a>"

/-- Constant head of the page rendered by `no_user_homepage` (everything
before the login URL is interpolated). -/
def noUserPre : String :=
  "\n            <h1>Partner API Demo Site</h1>\n            <h2>Welcome to the Climate Partner Demo App.</h2>\n            <p>Imagine that this page is your great web application and you\n            want to connect it with Climate FieldView. To do this, you need\n            to let your users establish a secure connection between your app\n            and FieldView. You do this using Log In with FieldView.</p>\n            <p style=\"text-align:center\"><a href=\""

/-- `no_user_homepage()` from `src/main.py`: the login URL (built by the
external `climate.login_uri`, passed in already formed) interpolated into
the welcome page. -/
def no_user_homepage (login_uri : String) : String :=
  noUserPre ++ (login_uri ++ "\">\n            <img src=\"./res/fv-login-button.png\"></a></p>")

/-- Constant head of the page rendered by `user_homepage` (everything
before the first name is interpolated). -/
def userPre : String :=
  "\n           <h1>Partner API Demo Site</h1>\n           <p>User name retrieved from FieldView: "

/-- The page rendered by `user_homepage`, as a function of the
interpolated values (`url_for` targets embedded as route paths). -/
def userPage (first last access refresh fields : String) : String :=
  userPre ++ (first ++ " " ++ last
    ++ "</p>\n           <p>Access Token: " ++ access
    ++ "</p>\n           <p>Refresh Token: " ++ refresh
    ++ "\n           (<a href=\"/refresh-token\">Refresh</a>)</p>\n           <table style=\"border-spacing: 50px 0;\"><tr><td>\n           <p>Your Climate fields:"
    ++ fields
    ++ "</p>\n           <p><a href=\"/upload\">Upload data</a></p>\n           <p><a href=\"/scouting-observations\">Scouting Observations</a></p>\n           </td><td>\n           <p>Your fields activities:</p>\n           <p><a href=\"/layers/asPlanted\" > asPlanted </a></p>\n           <p><a href=\"/layers/asHarvested\" > asHarvested </a></p>\n           <p><a href=\"/layers/asApplied\" > asApplied</a></p>\n           </td></tr></table>\n           <p><a href=\"/logout-redirect\">Log out</a></p>\n           ")

/-- `user_homepage()` from `src/main.py`: render the field list from the
cached fields and the user's names and tokens from the session.  `none`
embeds the unhandled TypeError/KeyError raised when the session does not
hold a field list or a user dictionary with both names. -/
def user_homepage (st : Dict) : Option String :=
  match state st "fields" with
  | PyVal.fieldList fs =>
    match state st "user" with
    | PyVal.dict u =>
      match strGet u "firstname", strGet u "lastname" with
      | some fn, some ln =>
          some (userPage fn ln (pyStr (state st "access_token"))
            (pyStr (state st "refresh_token"))
            (render_ul (fs.map render_field_link)))
      | _, _ => Option.none
    | _ => Option.none
  | _ => Option.none

/-- The `/home` route from `src/main.py`: `if state('user'):` — branch
on Python truthiness of the stored user. -/
def home (login_uri : String) (st : Dict) : Option String :=
  if truthy (state st "user") = true then user_homepage st
  else some (no_user_homepage login_uri)

/-- Indexing into the underlying character list of a concatenation stays
in the left part when the index is inside it. -/
theorem data_getElem?_append (A B : String) (n : Nat)
    (hn : n < A.data.length) : (A ++ B).data[n]? = A.data[n]? := by
  rw [String.data_append, List.getElem?_append, if_pos hn]

set_option maxRecDepth 40000

/-- Any output of `userPage` differs from any output of
`no_user_homepage`: their constant heads diverge at character 12 (the
two templates are indented differently). -/
theorem userPage_ne_no_user_homepage (f l a r fl url : String) :
    userPage f l a r fl ≠ no_user_homepage url := by
  intro h
  have h12 : (userPage f l a r fl).data[12]? = (no_user_homepage url).data[12]? := by
    rw [h]
  rw [userPage, no_user_homepage,
     data_getElem?_append userPre _ 12 (by decide),
     data_getElem?_append noUserPre _ 12 (by decide)] at h12
  have hu : userPre.data[12]? = some '<' := by decide
  have hn : noUserPre.data[12]? = some ' ' := by decide
  rw [hu, hn] at h12
  exact absurd (Option.some.inj h12) (by decide)

theorem user_homepage_shape (st : Dict) (s : String)
    (h : user_homepage st = some s) :
    ∃ f l a r fl, s = userPage f l a r fl := by
  unfold user_homepage at h
  split at h
  · split at h
    · split at h
      · exact ⟨_, _, _, _, _, (Option.some.inj h).symm⟩
      · exact absurd h (by simp)
    · exact absurd h (by simp)
  · exact absurd h (by simp)

/-- C6 (amended): the home route returns the no-user view exactly when
the stored user value is falsy (absent, `None`, or an empty value), and
takes the user-view branch whenever the stored user is truthy. -/
theorem home_view_branches_on_truthiness (login_uri : String) (st : Dict) :
    (home login_uri st = some (no_user_homepage login_uri) ↔
      truthy (state st "user") = false)
    ∧ (truthy (state st "user") = true → home login_uri st = user_homepage st) := by
  constructor
  · constructor
    · intro h
      cases ht : truthy (state st "user") with
      | false => rfl
      | true =>
        rw [home, if_pos ht] at h
        obtain ⟨f, l, a, r, fl, hs⟩ := user_homepage_shape st _ h
        exact absurd hs.symm (userPage_ne_no_user_homepage f l a r fl login_uri)
    · intro h
      rw [home, if_neg (by rw [h]; simp)]
  · intro h
    rw [home, if_pos h]

/-- Witness for C6 at the empty session: the user key is falsy there, so
the home route renders the no-user view. -/
theorem home_view_witness :
    home "url0" [] = some (no_user_homepage "url0") :=
  (home_view_branches_on_truthiness "url0" []).1.mpr (by decide)

/-- C6 (counterexample): a session holding a present but empty user
record is not absent, yet the home route renders the no-user view, not
the user view. -/
theorem home_present_falsy_user_counterexample :
    dictGet [("user", PyVal.dict [])] "user" ≠ Option.none
    ∧ home "login" [("user", PyVal.dict [])] = some (no_user_homepage "login")
    ∧ home "login" [("user", PyVal.dict [])] ≠ user_homepage [("user", PyVal.dict [])] := by
  refine ⟨by decide, rfl, ?_⟩
  intro h
  rw [show home "login" [("user", PyVal.dict [])] = some (no_user_homepage "login") from rfl] at h
  rw [show user_homepage [("user", PyVal.dict [])] = Option.none from rfl] at h
  exact absurd h (by simp)

/-- C10: the home route branches on truthiness of the stored user, not on
presence: a present but falsy user value yields the no-user view, the
same page as any session whose user key is absent. -/
theorem home_falsy_user_no_user_view (login_uri : String) (st : Dict)
    (v : PyVal) (hpresent : dictGet st "user" = some v)
    (hfalsy : truthy v = false) :
    home login_uri st = some (no_user_homepage login_uri)
    ∧ ∀ st2 : Dict, dictGet st2 "user" = Option.none →
        home login_uri st2 = some (no_user_homepage login_uri) := by
  constructor
  · rw [home, state, hpresent]
    simp [hfalsy]
  · intro st2 h2
    rw [home, state, h2]
    simp [truthy]

/-- Witness for C10: the concrete session holding an empty user record
is present but falsy, and renders the no-user view. -/
theorem home_falsy_user_witness :
    home "u" [("user", PyVal.dict [])] = some (no_user_homepage "u") :=
  (home_falsy_user_no_user_view "u" [("user", PyVal.dict [])]
    (PyVal.dict []) (by decide) (by decide)).1

/-! ### The paginated activity listing -/

/-- An activity record as rendered by the listing: its id and length are
read explicitly; the rest of the record is only JSON-dumped. -/
structure Activity where
  id : String
  length : Nat
  deriving DecidableEq

/-- Abstraction of `json.dumps(activity, indent=4, sort_keys=True)`. -/
def jsonOfActivity (a : Activity) : String :=
  "\x7b\n    \"id\": \"" ++ a.id ++ "\",\n    \"length\": "
    ++ toString a.length ++ "\n\x7d"

/-- `url_for` on the three activity endpoints: the registered route
path. -/
def endpointPath (endpoint : String) : String :=
  if endpoint = "as_planted" then "/layers/asPlanted"
  else if endpoint = "as_harvested" then "/layers/asHarvested"
  else if endpoint = "as_applied" then "/layers/asApplied"
  else ""

/-- `render_activitiy_link` from `src/main.py` (source spelling kept). -/
def render_activitiy_link (a : Activity) (link : String) : String :=
  "\n            " ++ a.id ++ " : <a href=\""
    ++ (link ++ "/" ++ a.id ++ "/contents?length=" ++ toString a.length)
    ++ "\"> Get contents </a>\n            <p><pre>" ++ jsonOfActivity a
    ++ "</pre></p>\n           "

/-- The default body of the activity page. -/
def noDataBody : String := "<p>No data found!</p>"

/-- The `body` computed by `handle_activity`: the default "No data
found!" paragraph, replaced whenever the activities value is not None
(also when it is an empty list). -/
def activityBody (activity : String) (activities : Option (List Activity)) :
    String :=
  match activities with
  | Option.none => noDataBody
  | some acts =>
      "<p>Your Climate " ++ (activity ++ (" activities:"
        ++ (render_ul (acts.map fun a =>
              render_activitiy_link a (endpointPath activity)) ++ "</p>")))

/-- The `more_records_html` computed by `handle_activity`: empty when the
client reported no continuation token, otherwise a link to the same
endpoint carrying the token (the literal 28 spaces come from the
backslash line continuation inside the source string). -/
def more_records_html (activity : String) (has_more_records : Option String) :
    String :=
  match has_more_records with
  | Option.none => ""
  | some tok =>
      "<p><a href='" ++ ((endpointPath activity ++ "?next_token=" ++ tok)
        ++ "'>More records >>                            </a></p>")

/-- The external pagination call resolved by `get_callee`: access token,
api key and optional cursor to (continuation token, activities). -/
abbrev ActivityClient :=
  PyVal → String → Option String → Option String × Option (List Activity)

/-- `handle_activity` from `src/main.py`: call the resolved client with
the optional `next_token` cursor, then render the body and the optional
"more records" link into the page template. -/
def handle_activity (client : ActivityClient) (access_token : PyVal)
    (api_key : String) (activity : String) (next_token : Option String) :
    String :=
  "\n            <h1>Partner API Demo Site</h1>\n            "
    ++ activityBody activity (client access_token api_key next_token).2
    ++ "\n            "
    ++ more_records_html activity (client access_token api_key next_token).1
    ++ "\n            <p><a href='/home'>Return home</a></p>\n            "

/-- The `/layers/asPlanted` route. -/
def as_planted (client : ActivityClient) (access_token : PyVal)
    (api_key : String) (next_token : Option String) : String :=
  handle_activity client access_token api_key "as_planted" next_token

/-- The `/layers/asHarvested` route. -/
def as_harvested (client : ActivityClient) (access_token : PyVal)
    (api_key : String) (next_token : Option String) : String :=
  handle_activity client access_token api_key "as_harvested" next_token

/-- The `/layers/asApplied` route. -/
def as_applied (client : ActivityClient) (access_token : PyVal)
    (api_key : String) (next_token : Option String) : String :=
  handle_activity client access_token api_key "as_applied" next_token

/-- `pat` occurs contiguously inside `s`. -/
def substrOf (pat s : String) : Prop := pat.data <:+: s.data

instance substrOf.decidable (pat s : String) : Decidable (substrOf pat s) :=
  inferInstanceAs (Decidable (pat.data <:+: s.data))

theorem substrOf_slot2 (H1 mid S2 more S3 : String) :
    substrOf mid (H1 ++ mid ++ S2 ++ more ++ S3) :=
  ⟨H1.data, S2.data ++ (more.data ++ S3.data), by
    simp [String.data_append, List.append_assoc]⟩

theorem substrOf_slot4 (H1 body S2 more S3 : String) :
    substrOf more (H1 ++ body ++ S2 ++ more ++ S3) :=
  ⟨(H1 ++ body ++ S2).data, S3.data, by
    simp [String.data_append, List.append_assoc]⟩

theorem substrOf_suffix (p t : String) : substrOf t (p ++ t) :=
  ⟨p.data, [], by simp [String.data_append]⟩

theorem activityBody_some_ne_noData (activity : String)
    (acts : List Activity) :
    activityBody activity (some acts) ≠ noDataBody := by
  intro h
  have h3 : (activityBody activity (some acts)).data[3]?
      = noDataBody.data[3]? := by rw [h]
  simp only [activityBody] at h3
  rw [data_getElem?_append "<p>Your Climate " _ 3 (by decide)] at h3
  rw [show ("<p>Your Climate ").data[3]? = some 'Y' by decide] at h3
  rw [show noDataBody.data[3]? = some 'N' by decide] at h3
  exact absurd (Option.some.inj h3) (by decide)

/-- C9: the listing distinguishes an absent activities value from an
empty one.  The body equals "No data found!" exactly when the client
returned None; for an empty (but non-None) list the body is the "Your
Climate ... activities" paragraph with an empty list; the rendered page
carries the body; and on the concrete empty-list response the page does
not contain "No data found!" at all. -/
theorem activity_empty_list_vs_absent (client : ActivityClient)
    (tok : PyVal) (key activity : String) (nt : Option String) :
    (∀ acts : Option (List Activity),
        activityBody activity acts = noDataBody ↔ acts = Option.none)
    ∧ activityBody activity (some [])
        = "<p>Your Climate " ++ (activity ++ " activities:<ul></ul></p>")
    ∧ substrOf (activityBody activity (client tok key nt).2)
        (handle_activity client tok key activity nt)
    ∧ ¬ substrOf noDataBody
        (handle_activity (fun _ _ _ => (Option.none, some [])) PyVal.none "k"
          "as_planted" Option.none) := by
  refine ⟨?_, ?_, ?_, ?_⟩
  · intro acts
    cases acts with
    | none => simp [activityBody]
    | some xs =>
      constructor
      · intro h
        exact absurd h (activityBody_some_ne_noData activity xs)
      · intro h
        exact absurd h (by simp)
  · simp only [activityBody, List.map_nil]
    rw [show render_ul [] = "<ul></ul>" by decide]
    rw [show (" activities:" ++ ("<ul></ul>" ++ "</p>"))
        = " activities:<ul></ul></p>" by decide]
  · simp only [handle_activity]
    exact substrOf_slot2 _ _ _ _ _
  · decide

/-- Witness for C9 at a concrete response: the empty list renders the
activities paragraph, and only None renders "No data found!". -/
theorem activity_empty_list_witness :
    activityBody "as_planted" (some [])
      = "<p>Your Climate " ++ ("as_planted" ++ " activities:<ul></ul></p>")
    ∧ activityBody "as_planted" Option.none = noDataBody := by
  have h := activity_empty_list_vs_absent
      (fun _ _ _ => (Option.none, some [])) PyVal.none "k" "as_planted"
      Option.none
  exact ⟨h.2.1, (h.1 Option.none).mpr rfl⟩

/-- C7: when the client response carries a continuation token, the page
contains a "more records" link whose URL carries that token; when the
response has no token the more-records slot of the page is empty, and on
a concrete tokenless response the page nowhere contains "More
records". -/
theorem activity_more_records_link (client : ActivityClient) (tok : PyVal)
    (key activity : String) (nt : Option String) :
    (∀ t, (client tok key nt).1 = some t →
      more_records_html activity (some t)
        = "<p><a href='" ++ ((endpointPath activity ++ "?next_token=" ++ t)
            ++ "'>More records >>                            </a></p>")
      ∧ substrOf t (endpointPath activity ++ "?next_token=" ++ t)
      ∧ substrOf (more_records_html activity (some t))
          (handle_activity client tok key activity nt))
    ∧ ((client tok key nt).1 = Option.none →
        more_records_html activity (client tok key nt).1 = ""
        ∧ handle_activity client tok key activity nt
            = "\n            <h1>Partner API Demo Site</h1>\n            "
              ++ activityBody activity (client tok key nt).2
              ++ "\n            " ++ ""
              ++ "\n            <p><a href='/home'>Return home</a></p>\n            ")
    ∧ ¬ substrOf "More records"
        (handle_activity (fun _ _ _ => (Option.none, some [])) PyVal.none "k"
          "as_planted" Option.none) := by
  refine ⟨?_, ?_, ?_⟩
  · intro t ht
    refine ⟨rfl, substrOf_suffix _ _, ?_⟩
    simp only [handle_activity, ht]
    exact substrOf_slot4 _ _ _ _ _
  · intro h
    constructor
    · rw [h]
      rfl
    · simp only [handle_activity, h]
      rfl
  · decide

/-- Witness for C7 at a concrete response carrying the token `TOK123`:
the link URL contains the token and the link appears in the page. -/
theorem activity_more_records_witness :
    substrOf "TOK123" (endpointPath "as_planted" ++ "?next_token=" ++ "TOK123")
    ∧ substrOf (more_records_html "as_planted" (some "TOK123"))
        (handle_activity (fun _ _ _ => (some "TOK123", some [])) PyVal.none "k"
          "as_planted" Option.none) := by
  have h := (activity_more_records_link
      (fun _ _ _ => (some "TOK123", some [])) PyVal.none "k" "as_planted"
      Option.none).1 "TOK123" rfl
  exact ⟨h.2.1, h.2.2⟩

end PartnerApp
